import Mathlib

/-!
Verification of the ensemble orchestrator of Quantum-Commander
(`commander/ensemble.py` and the invoker in `commander/agent.py`).

The Python code is shallowly embedded as executable Lean definitions.
Python floats are modelled as exact rationals; Python dicts with the
fixed keys the code inspects are modelled as structures of `Option`
fields (a `none` field = absent key); the network backend behind
`run_once` / `_cached_model_call` is an oracle parameter whose
`.error` outcome models an exception escaping the call; logging and
wall-clock time (`elapsed_s`) are not modelled.
-/

namespace QC

/-- Python truthiness of an optional string: `None` and `""` are falsy. -/
def pyTruthy : Option String → Bool
  | none => false
  | some s => s ≠ ""

/-- Python `str.strip()` (structurally recursive so that concrete values
kernel-evaluate). -/
def pyStrip (s : String) : String :=
  ⟨((s.toList.dropWhile Char.isWhitespace).reverse.dropWhile Char.isWhitespace).reverse⟩

/-- Python `str.lower()` (ASCII fragment, structurally recursive). -/
def pyLower (s : String) : String :=
  ⟨s.toList.map Char.toLower⟩

/-- Python `s[:n]`. -/
def pyTake (s : String) (n : ℕ) : String := ⟨s.toList.take n⟩

/-- Python `s[n:]`. -/
def pyDrop (s : String) (n : ℕ) : String := ⟨s.toList.drop n⟩

/-- The longest prefix of `s` whose characters satisfy `p`. -/
def pyTakeWhile (s : String) (p : Char → Bool) : String := ⟨s.toList.takeWhile p⟩

/-- Whether `s` contains the character `c`. -/
def pyHasChar (s : String) (c : Char) : Bool := s.toList.contains c

/-- Split a character list at a separator character (the semantics of
Python `str.split(sep)` for a one-character separator). -/
def splitOnChar (sep : Char) (l : List Char) : List (List Char) :=
  l.foldr (fun c acc =>
    match acc with
    | [] => [[c]]
    | cur :: rest => if c = sep then [] :: (cur :: rest) else (c :: cur) :: rest) [[]]

/-- Python `s.split(sep)` for a one-character separator. -/
def pySplitChar (s : String) (sep : Char) : List String :=
  (splitOnChar sep s.toList).map (fun l => ⟨l⟩)

/-- Python `a or b` for an optional string `a` (falsy: `None`, `""`). -/
def pyOrStr : Option String → String → String
  | none, b => b
  | some s, b => if s = "" then b else s

/-- Python `a or b` for an optional list `a` (falsy: `None`, `[]`). -/
def pyOrList {α : Type} : Option (List α) → List α → List α
  | none, b => b
  | some l, b => if l.isEmpty then b else l

/-- Accumulating splitter behind `pySplitWs`; the accumulator holds the
current word reversed. -/
def wsSplitAux : List Char → List Char → List (List Char)
  | [], acc => if acc.isEmpty then [] else [acc.reverse]
  | c :: rest, acc =>
    if c.isWhitespace then
      if acc.isEmpty then wsSplitAux rest [] else acc.reverse :: wsSplitAux rest []
    else wsSplitAux rest (c :: acc)

/-- Python `str.split()` with no separator: maximal whitespace-free runs. -/
def pySplitWs (s : String) : List String :=
  (wsSplitAux s.toList []).map (fun l => ⟨l⟩)

/-- Whether `sub` is a prefix of `l` (over characters). -/
def isPrefixCL : List Char → List Char → Bool
  | [], _ => true
  | _ :: _, [] => false
  | a :: as, b :: bs => a == b && isPrefixCL as bs

/-- Whether `sub` occurs inside `l` (over characters). -/
def containsCL (sub : List Char) : List Char → Bool
  | [] => isPrefixCL sub []
  | c :: rest => isPrefixCL sub (c :: rest) || containsCL sub rest

/-- Python substring test `sub in s`. -/
def containsSub (s sub : String) : Bool :=
  containsCL sub.toList s.toList

/-- A Python dict of the shape `{"provider": ..., "model": ...}`; a `none`
field models an absent key. -/
structure ModelDict where
  provider : Option String
  model : Option String
  deriving DecidableEq

/-- Python `d[key]` at use sites where validation guarantees the key. -/
def dGet (o : Option String) : String := o.getD ""

/-- From `ensemble.py`: `_validate_model_config` — checks that both keys
are present (it does not inspect the values). -/
def _validate_model_config (m : ModelDict) : Bool :=
  m.provider.isSome && m.model.isSome

/-- One `provider:model` piece of the comma-separated fallback grammar of
`_parse_models`. -/
def parseCsvPart (part : String) : Option ModelDict :=
  let part := pyStrip part
  if part = "" then none
  else if pyHasChar part ':' then
    let p := pyTakeWhile part (· ≠ ':')
    let m := pyDrop part (p.length + 1)
    some ⟨some (pyStrip p), some (pyStrip m)⟩
  else none

/-- The comma-separated branch of `_parse_models`. -/
def csvParse (s : String) : List ModelDict :=
  (pySplitChar s ',').filterMap parseCsvPart

/-- Outcome of `json.loads` on the pool string, supplied as an oracle:
an exception, a non-list value, or a list of dicts (restricted to the
provider/model keys the code inspects). -/
def JsonOutcome : Type := Except Unit (Option (List ModelDict))

/-- From `ensemble.py`: `_parse_models`. -/
def _parse_models (envVal : Option String) (jo : JsonOutcome) : List ModelDict :=
  match envVal with
  | none => []
  | some s =>
    if s = "" then []
    else
      match jo with
      | .ok (some data) => data.filter (fun m => _validate_model_config m)
      | _ => csvParse (pyStrip s)

/-- The environment variables read by `ensemble.py` (a `none` field models
an unset variable). `OPENAI_API_KEY`/`ANTHROPIC_API_KEY` are listed even
though `_get_default_models` never reads them. -/
structure Env where
  ensembleMode : Option String := none
  ensembleModels : Option String := none
  openaiModel : Option String := none
  anthropicModel : Option String := none
  groqModel : Option String := none
  deepseekModel : Option String := none
  openaiApiKey : Option String := none
  anthropicApiKey : Option String := none
  groqApiKey : Option String := none
  deepseekApiKey : Option String := none
  ensembleJudgeProvider : Option String := none
  modelProvider : Option String := none
  ensembleJudgeModel : Option String := none
  deriving DecidableEq

/-- From `ensemble.py`: `_get_default_models`. openai and anthropic are
unconditional; groq and deepseek are gated on their API keys. -/
def _get_default_models (env : Env) : List ModelDict :=
  let pool : List ModelDict :=
    [⟨some "openai", some (env.openaiModel.getD "gpt-4o")⟩,
     ⟨some "anthropic", some (env.anthropicModel.getD "claude-3-5-sonnet-latest")⟩]
  let pool := if pyTruthy env.groqApiKey then
      pool ++ [⟨some "groq", some (env.groqModel.getD "llama-3.1-70b-versatile")⟩]
    else pool
  let pool := if pyTruthy env.deepseekApiKey then
      pool ++ [⟨some "deepseek", some (env.deepseekModel.getD "deepseek-reasoner")⟩]
    else pool
  pool

/-- From `ensemble.py`: `_get_fallback_response`. -/
def _get_fallback_response (message : String) : String :=
  "I apologize, but I\x27m unable to provide a response at this time. " ++
  "Please try again later or simplify your query: " ++ pyTake message 100 ++ "..."

/-- From `ensemble.py`: `_calculate_confidence`, over exact rationals. -/
def _calculate_confidence (question response : String) : ℚ :=
  let questionLen := (pySplitWs question).length
  let responseLen := (pySplitWs response).length
  if questionLen = 0 ∨ responseLen = 0 then 0
  else
    let ratioQ : ℚ := (responseLen : ℚ) / (questionLen : ℚ)
    let ratioFactor : ℚ := min 1 (ratioQ / 5)
    let errorScore : ℕ :=
      (["sorry", "error", "unable", "cannot", "as an ai"].filter
        (fun ind => containsSub (pyLower response) ind)).length
    let confidence := max (1/10 : ℚ) (7/10 - (errorScore : ℚ) * (1/10) + ratioFactor * (3/10))
    min 1 confidence

/-- One recorded backend invocation: the argument tuple that
`run_ensemble` passes to `_cached_model_call`. -/
structure Call where
  provider : String
  model : String
  message : String
  temperature : ℚ
  maxTokens : ℤ
  deriving DecidableEq

/-- Oracle for `_cached_model_call`: `.ok text` models `run_once`
returning text (possibly an agent-error sentinel string), `.error e`
models an exception escaping the call into the strategy engine. -/
def Ocall : Type := String → String → String → ℚ → ℤ → Except String String

/-- The keyword vocabulary of `_router_choice`. -/
def routerKeywords : List String :=
  ["law", "statute", "fdcpa", "ucc", "tax", "irs", "contract"]

/-- The nested provider-priority loops of `_router_choice`: first provider
of the priority list present in the pool. -/
def firstByPriority (pool : List ModelDict) : List String → Option ModelDict
  | [] => none
  | p :: rest =>
    match pool.find? (fun m => dGet m.provider = p) with
    | some m => some m
    | none => firstByPriority pool rest

/-- From `ensemble.py`: `_router_choice`. A keyword hit (or an over-long
question) whose scan finds no matching pool entry falls through to the
next rule, exactly as the Python for-loops do. -/
def _router_choice (question : String) (pool : List ModelDict) : ModelDict :=
  let q := pyLower question
  let kwChoice : Option ModelDict :=
    if routerKeywords.any (fun k => containsSub q k) then
      pool.find? (fun m => dGet m.provider = "anthropic" || dGet m.provider = "openai")
    else none
  match kwChoice with
  | some m => m
  | none =>
    let lenChoice : Option ModelDict :=
      if question.length > 1200 then
        firstByPriority pool ["openai", "anthropic", "deepseek", "groq"]
      else none
    match lenChoice with
    | some m => m
    | none => pool.headD ⟨some "openai", some "gpt-4o"⟩

/-- Join strings with a separator (Python `sep.join`, structurally
recursive). -/
def joinSep (sep : String) : List String → String
  | [] => ""
  | [x] => x
  | x :: y :: rest => x ++ sep ++ joinSep sep (y :: rest)

/-- The numbered candidate list inside the judge prompt. -/
def numberedCandidates (candidates : List (String × String)) : String :=
  joinSep "\n\n"
    (candidates.enum.map
      (fun p => "[" ++ toString p.1 ++ "] (" ++ p.2.1 ++ ")\n" ++ p.2.2))

/-- The judge prompt built by `_judge`. -/
def judgePrompt (question : String) (candidates : List (String × String)) : String :=
  "You are a careful evaluator. Pick the best answer by index.\nQuestion:\n"
    ++ question
    ++ "\n\nCandidates:\n" ++ numberedCandidates candidates
    ++ "\n\nRules:\n- Consider correctness, completeness, clarity, and citations if present.\n"
    ++ "- Prefer answers that are non-empty and contain useful substance; avoid picking empty or trivial outputs.\n"
    ++ "- Reply ONLY with the index number (e.g., 0 or 1 or 2). No explanation."

/-- Word characters for the regex word boundary (ASCII fragment). -/
def isWordChar (c : Char) : Bool := c.isAlphanum || c = '_'

/-- Numeric value of a digit run. -/
def natOfDigits (l : List Char) : ℕ :=
  l.foldl (fun n c => n * 10 + (c.toNat - 48)) 0

/-- Scanner behind `firstInt`; the fuel only bounds recursion and is
ample at `length + 1`. -/
def firstIntAux : ℕ → Option Char → List Char → Option ℕ
  | 0, _, _ => none
  | _, _, [] => none
  | fuel + 1, prev, c :: rest =>
    if c.isDigit && !(match prev with | some p => isWordChar p | none => false) then
      let run := (c :: rest).takeWhile Char.isDigit
      let after := (c :: rest).dropWhile Char.isDigit
      match after with
      | [] => some (natOfDigits run)
      | d :: afterRest =>
        if isWordChar d then firstIntAux fuel (some d) afterRest
        else some (natOfDigits run)
    else firstIntAux fuel (some c) rest

/-- Python regex search for a whole digit run bounded by word boundaries,
as `_judge` does on the judge reply; returns the first match. -/
def firstInt (s : String) : Option ℕ :=
  firstIntAux (s.toList.length + 1) none s.toList

/-- From `ensemble.py`: `_judge`, returning the chosen text and the list
of backend calls it made. An out-of-range index (possible only for empty
candidate lists) raises inside the try-block and lands in the except
branch, like the Python IndexError. -/
def _judge (ocall : Ocall) (question : String) (candidates : List (String × String))
    (judgeProvider judgeModel : String) (temperature : ℚ) (maxTokens : ℤ) :
    String × List Call :=
  let _ := maxTokens
  let prompt := judgePrompt question candidates
  let jtemp := min (1/5 : ℚ) temperature
  let call : Call := ⟨judgeProvider, judgeModel, prompt, jtemp, 16⟩
  match ocall judgeProvider judgeModel prompt jtemp 16 with
  | .ok out =>
    let out := pyStrip out
    let idx : ℤ := ((firstInt out).getD 0 : ℕ)
    let idx : ℤ := max 0 (min idx ((candidates.length : ℤ) - 1))
    match candidates.get? idx.toNat with
    | some c => (c.2, [call])
    | none => (((candidates.head?).map Prod.snd).getD (_get_fallback_response question), [call])
  | .error _ =>
    (((candidates.head?).map Prod.snd).getD (_get_fallback_response question), [call])

/-- One entry of `meta["candidates"]`: a success diagnostic
`{"model", "len", "confidence"}` or a failure `{"model", "error"}`. -/
inductive Diag where
  | ok (model : ModelDict) (len : ℕ) (confidence : ℚ)
  | fail (model : ModelDict) (error : String)
  deriving DecidableEq

/-- The value of `meta["chosen"]`: a pool entry, or the judge identity
dict `{"provider", "model", "role": "judge"}`. -/
inductive Chosen where
  | model (m : ModelDict)
  | judge (provider model : String)
  deriving DecidableEq

/-- The `meta["winner"]` dict. -/
structure Winner where
  provider : Option String
  model : Option String
  deriving DecidableEq

/-- The `meta` dict of an `EnsembleResult`; a `none` field models an
absent key (or a key set to Python `None`). `elapsed_s` (wall-clock) is
not modelled. -/
structure Meta where
  mode : Option String := none
  candidates : Option (List Diag) := none
  chosen : Option Chosen := none
  winner : Option Winner := none
  confidence : Option ℚ := none
  error : Option String := none
  chosenFallback : Option String := none
  deriving DecidableEq

/-- The dict returned by `run_ensemble`. -/
structure EnsembleResult where
  response : String
  meta : Meta
  deriving DecidableEq

/-- The keyword arguments of `run_ensemble`, with its Python defaults. -/
structure Args where
  message : String
  temperature : ℚ := 1/5
  maxTokens : ℤ := 800
  mode : Option String := none
  models : Option (List ModelDict) := none
  judgeProvider : Option String := none
  judgeModel : Option String := none
  timeout : ℤ := 30

/-- The `mode == "router"` branch of `run_ensemble`. An exception from
the single invocation is not caught locally: it reaches the outer
except-handler, which returns `{"error": str(e), "mode": mode}`. -/
def routerBranch (ocall : Ocall) (mode : String) (pool : List ModelDict)
    (message : String) (temperature : ℚ) (maxTokens : ℤ) :
    EnsembleResult × List Call :=
  let choice := _router_choice message pool
  let call : Call := ⟨dGet choice.provider, dGet choice.model, message, temperature, maxTokens⟩
  match ocall (dGet choice.provider) (dGet choice.model) message temperature maxTokens with
  | .ok text =>
    (⟨text,
      { mode := some mode, candidates := some [],
        chosen := some (.model choice),
        winner := some ⟨some (dGet choice.provider), some (dGet choice.model)⟩,
        confidence := some (_calculate_confidence message text) }⟩, [call])
  | .error e =>
    (⟨_get_fallback_response message, { mode := some mode, error := some e }⟩, [call])

/-- Loop state of the cascade branch. -/
structure CascadeState where
  bestText : String
  bestScore : ℕ
  bestModel : Option ModelDict
  diags : List Diag
  calls : List Call

/-- The cascade for-loop: per-member failures are recorded and skipped;
the loop breaks once a trimmed response length reaches `max_tokens`. -/
def cascadeLoop (ocall : Ocall) (message : String) (temperature : ℚ) (maxTokens : ℤ) :
    List ModelDict → CascadeState → CascadeState
  | [], st => st
  | m :: rest, st =>
    let call : Call := ⟨dGet m.provider, dGet m.model, message, temperature, maxTokens⟩
    match ocall (dGet m.provider) (dGet m.model) message temperature maxTokens with
    | .error e =>
      cascadeLoop ocall message temperature maxTokens rest
        { st with diags := st.diags ++ [.fail m e], calls := st.calls ++ [call] }
    | .ok t =>
      let score := (pyStrip t).length
      let conf := _calculate_confidence message t
      let st1 : CascadeState :=
        { st with diags := st.diags ++ [.ok m score conf], calls := st.calls ++ [call] }
      let st2 : CascadeState :=
        if score > st1.bestScore then
          { st1 with bestText := t, bestScore := score, bestModel := some m }
        else st1
      if (score : ℤ) ≥ maxTokens then st2
      else cascadeLoop ocall message temperature maxTokens rest st2

/-- The `mode == "cascade"` branch of `run_ensemble`. -/
def cascadeBranch (ocall : Ocall) (mode : String) (pool : List ModelDict)
    (message : String) (temperature : ℚ) (maxTokens : ℤ) :
    EnsembleResult × List Call :=
  let st := cascadeLoop ocall message temperature maxTokens pool ⟨"", 0, none, [], []⟩
  let meta : Meta :=
    { mode := some mode, candidates := some st.diags,
      chosen := st.bestModel.map Chosen.model,
      winner := st.bestModel.map (fun bm => ⟨bm.provider, bm.model⟩),
      confidence := if st.bestText ≠ "" then
          some (_calculate_confidence message st.bestText)
        else none }
  (⟨if st.bestText ≠ "" then st.bestText else _get_fallback_response message, meta⟩,
   st.calls)

/-- Loop state of the committee branch. -/
structure CommitteeState where
  candidates : List (String × String)
  diags : List Diag
  calls : List Call

/-- The committee for-loop: collects `(label, text)` candidates, recording
per-member failures and continuing. -/
def committeeLoop (ocall : Ocall) (message : String) (temperature : ℚ) (maxTokens : ℤ) :
    List ModelDict → CommitteeState → CommitteeState
  | [], st => st
  | m :: rest, st =>
    let label := dGet m.provider ++ ":" ++ dGet m.model
    let call : Call := ⟨dGet m.provider, dGet m.model, message, temperature, maxTokens⟩
    match ocall (dGet m.provider) (dGet m.model) message temperature maxTokens with
    | .ok t =>
      committeeLoop ocall message temperature maxTokens rest
        { candidates := st.candidates ++ [(label, t)],
          diags := st.diags ++ [.ok m (pyStrip t).length (_calculate_confidence message t)],
          calls := st.calls ++ [call] }
    | .error e =>
      committeeLoop ocall message temperature maxTokens rest
        { st with diags := st.diags ++ [.fail m e], calls := st.calls ++ [call] }

/-- Strict lexicographic comparison on the `(confidence, length)` key of
the judge guardrail. -/
def keyLtQN (x y : ℚ × ℕ) : Bool :=
  decide (x.1 < y.1) || (decide (x.1 = y.1) && decide (x.2 < y.2))

/-- One step of Python `max(iterable, key=k)`: keep the current maximum
unless the next element's key is strictly larger. -/
def pyMaxStep (k : String × String → ℚ × ℕ) (acc : Option (String × String))
    (x : String × String) : Option (String × String) :=
  match acc with
  | none => some x
  | some b => if keyLtQN (k b) (k x) then some x else some b

/-- Python `max(iterable, key=k)`: the first element with maximal key. -/
def pyMaxByKey (l : List (String × String)) (k : String × String → ℚ × ℕ) :
    Option (String × String) :=
  l.foldl (pyMaxStep k) none

/-- The committee+judge branch of `run_ensemble` (the default branch). -/
def committeeBranch (env : Env) (ocall : Ocall) (mode : String) (pool : List ModelDict)
    (message : String) (temperature : ℚ) (maxTokens : ℤ)
    (judgeProviderArg judgeModelArg : Option String) :
    EnsembleResult × List Call :=
  let judgeProvider := pyOrStr judgeProviderArg
    (env.ensembleJudgeProvider.getD (env.modelProvider.getD "openai"))
  let judgeModel := pyOrStr judgeModelArg
    (env.ensembleJudgeModel.getD (env.openaiModel.getD "gpt-4o"))
  let st := committeeLoop ocall message temperature maxTokens pool ⟨[], [], []⟩
  if st.candidates.isEmpty then
    (⟨_get_fallback_response message,
      { mode := some mode, candidates := some st.diags }⟩, st.calls)
  else
    let jr := _judge ocall message st.candidates judgeProvider judgeModel temperature maxTokens
    let chosen := jr.1
    let winnerLabel : Option String :=
      (st.candidates.find? (fun p => p.2 = chosen)).map Prod.fst
    let guard := pyStrip chosen = ""
    let best := pyMaxByKey st.candidates
      (fun p => (_calculate_confidence message p.2, (pyStrip p.2).length))
    let chosen2 := if guard then (best.map Prod.snd).getD chosen else chosen
    let winnerLabel2 := if guard then best.map Prod.fst else winnerLabel
    let meta : Meta :=
      { mode := some mode, candidates := some st.diags,
        chosen := some (.judge judgeProvider judgeModel),
        winner := winnerLabel2.bind (fun l =>
          if pyHasChar l ':' then
            some ⟨some (pyTakeWhile l (· ≠ ':')),
                  some (pyDrop l ((pyTakeWhile l (· ≠ ':')).length + 1))⟩
          else none),
        confidence := some (_calculate_confidence message chosen2),
        chosenFallback := if guard then some "non_empty_best" else none }
    (⟨chosen2, meta⟩, st.calls ++ jr.2)

/-- The pool resolution of `run_ensemble` (lines 181-190): explicit pool
or environment pool, validated, with the built-in defaults substituted
when the validated pool is empty. -/
def resolvedPool (env : Env) (jo : JsonOutcome) (a : Args) : List ModelDict :=
  let pool0 := pyOrList a.models (_parse_models env.ensembleModels jo)
  let validated := pool0.filter _validate_model_config
  if validated.isEmpty then _get_default_models env else validated

/-- The body of `run_ensemble` after mode normalization and pool
resolution: the no-models guard and the three-way mode dispatch. -/
def dispatchEnsemble (env : Env) (ocall : Ocall) (mode : String)
    (pool : List ModelDict) (a : Args) : EnsembleResult × List Call :=
  if pool.isEmpty then
    (⟨_get_fallback_response a.message, { error := some "No models available" }⟩, [])
  else if mode = "router" then
    routerBranch ocall mode pool a.message a.temperature a.maxTokens
  else if mode = "cascade" then
    cascadeBranch ocall mode pool a.message a.temperature a.maxTokens
  else
    committeeBranch env ocall mode pool a.message a.temperature a.maxTokens
      a.judgeProvider a.judgeModel

/-- From `ensemble.py`: `run_ensemble`, returning the result dict and the
ordered list of backend invocations it performed. -/
def run_ensemble (env : Env) (jo : JsonOutcome) (ocall : Ocall) (a : Args) :
    EnsembleResult × List Call :=
  if pyStrip a.message = "" then
    (⟨"Empty query received", { error := some "Empty query" }⟩, [])
  else
    dispatchEnsemble env ocall
      (pyLower (pyOrStr a.mode (env.ensembleMode.getD "committee")))
      (resolvedPool env jo a) a

/-- Outcome of the one backend API call performed inside the try-block of
`make_agent` (`agent.py`): response text, or an exception raised during
the call, carried as its type name and message. -/
inductive CallOutcome where
  | text (t : String)
  | raised (name msg : String)

/-- From `agent.py`: `make_agent` as called by `run_once`. `_lazy_client`
raises for unsupported providers before the try-block; inside the
try-block any error raised by the backend call is caught and returned as
an agent-error sentinel string. The provider-specific text extraction is
abstracted to `.trim`, which each of the three return paths applies. -/
def make_agent (provider : String) (backend : CallOutcome) : Except String String :=
  if pyLower provider = "openai" ∨ pyLower provider = "anthropic" ∨
      pyLower provider = "groq" ∨ pyLower provider = "deepseek" then
    match backend with
    | .text t => .ok (pyStrip t)
    | .raised n m => .ok ("[agent-error] " ++ n ++ ": " ++ m)
  else
    .error ("Unsupported MODEL_PROVIDER: " ++ pyLower provider)

/-- Modelled from the spec: `clamp(lo, hi, x)`. -/
def specClamp (lo hi x : ℚ) : ℚ := min hi (max lo x)

/-- Modelled from the spec: how many of the five case-insensitive
weak-answer indicator phrases occur in the response. -/
def indicatorCount (response : String) : ℕ :=
  (["sorry", "error", "unable", "cannot", "as an ai"].filter
    (fun ind => containsSub (pyLower response) ind)).length

/-- Modelled from the spec: the Confidence Scorer formula as the claim
states it. -/
def confidenceSpec (question response : String) : ℚ :=
  if (pySplitWs question).length = 0 ∨ (pySplitWs response).length = 0 then 0
  else
    specClamp (1/10) 1
      (7/10 - (indicatorCount response : ℚ) * (1/10)
        + (3/10) * min 1 ((((pySplitWs response).length : ℚ)
            / ((pySplitWs question).length : ℚ)) / 5))

lemma confidence_lower_bound (q r : String) (hq : (pySplitWs q).length ≠ 0)
    (hr : (pySplitWs r).length ≠ 0) :
    (1:ℚ)/10 ≤ _calculate_confidence q r := by
  simp only [_calculate_confidence, if_neg (not_or.mpr ⟨hq, hr⟩)]
  exact le_min (by norm_num) (le_max_left _ _)

lemma clamp_bounds (x : ℚ) :
    0 ≤ min 1 (max (1/10) x) ∧ min 1 (max (1/10) x) ≤ 1 ∧
    (1 : ℚ)/10 ≤ min 1 (max (1/10) x) := by
  refine ⟨?_, min_le_left _ _, le_min (by norm_num) (le_max_left _ _)⟩
  exact le_min (by norm_num) (le_trans (by norm_num) (le_max_left _ _))

/-- C5: the Confidence Scorer returns `0` when either side has zero
words, otherwise the clamped spec formula; the result is always in
`[0, 1]`, and in `[1/10, 1]` when both sides have words. -/
theorem confidence_scorer_formula (q r : String) :
    _calculate_confidence q r = confidenceSpec q r ∧
    0 ≤ _calculate_confidence q r ∧ _calculate_confidence q r ≤ 1 ∧
    ((pySplitWs q).length ≠ 0 → (pySplitWs r).length ≠ 0 →
      (1 : ℚ)/10 ≤ _calculate_confidence q r) := by
  by_cases h : (pySplitWs q).length = 0 ∨ (pySplitWs r).length = 0
  · simp only [_calculate_confidence, confidenceSpec, if_pos h]
    refine ⟨trivial, le_refl _, by norm_num, ?_⟩
    intro hq hr
    rcases h with h | h
    · exact absurd h hq
    · exact absurd h hr
  · simp only [_calculate_confidence, confidenceSpec, specClamp, indicatorCount, if_neg h]
    refine ⟨by ring_nf, (clamp_bounds _).1, (clamp_bounds _).2.1,
      fun _ _ => (clamp_bounds _).2.2⟩

/-- C5 witness: concrete evaluations through the theorem. -/
theorem confidence_scorer_formula_witness :
    _calculate_confidence "" "anything" = 0 ∧
    (1 : ℚ)/10 ≤ _calculate_confidence "What is 2+2?" "Sorry, I cannot answer" ∧
    _calculate_confidence "What is 2+2?" "Sorry, I cannot answer" ≤ 1 := by
  refine ⟨?_, ?_, ?_⟩
  · have h := (confidence_scorer_formula "" "anything").1
    rw [h]
    decide
  · exact (confidence_scorer_formula "What is 2+2?" "Sorry, I cannot answer").2.2.2
      (by decide) (by decide)
  · exact (confidence_scorer_formula "What is 2+2?" "Sorry, I cannot answer").2.2.1

/-- C2: for every supported provider, whatever the backend call does —
return text or raise a transport/auth/backend error — `make_agent`
returns a value (the text, or the agent-error sentinel) and never lets
the exception propagate. -/
theorem invoker_catches_backend_errors (provider : String) (backend : CallOutcome)
    (h : pyLower provider = "openai" ∨ pyLower provider = "anthropic" ∨
      pyLower provider = "groq" ∨ pyLower provider = "deepseek") :
    ∃ t, make_agent provider backend = .ok t := by
  unfold make_agent
  rw [if_pos h]
  cases backend with
  | text t => exact ⟨pyStrip t, rfl⟩
  | raised n m => exact ⟨"[agent-error] " ++ n ++ ": " ++ m, rfl⟩

/-- C2 witness: a raised timeout on openai yields the sentinel, not an
exception. -/
theorem invoker_catches_backend_errors_witness :
    ∃ t, make_agent "openai" (.raised "APITimeoutError" "Request timed out") = .ok t :=
  invoker_catches_backend_errors "openai"
    (.raised "APITimeoutError" "Request timed out") (Or.inl (by decide))

/-- C8: an empty or whitespace-only message short-circuits to the canned
result with no model invocation, for every mode, pool and environment. -/
theorem empty_message_short_circuits (env : Env) (jo : JsonOutcome) (ocall : Ocall)
    (a : Args) (h : pyStrip a.message = "") :
    run_ensemble env jo ocall a =
      (⟨"Empty query received", { error := some "Empty query" }⟩, []) := by
  unfold run_ensemble
  rw [if_pos h]

/-- C8 witness: a whitespace-only message with a populated pool and a
live oracle still short-circuits. -/
theorem empty_message_short_circuits_witness :
    run_ensemble {} (.error ()) (fun _ _ _ _ _ => .ok "hello")
      { message := "  ", mode := some "router",
        models := some [⟨some "openai", some "gpt-4o"⟩] } =
      (⟨"Empty query received", { error := some "Empty query" }⟩, []) :=
  empty_message_short_circuits _ _ _ _ (by decide)

lemma default_models_not_empty (env : Env) : (_get_default_models env).isEmpty = false := by
  simp only [_get_default_models]
  split <;> split <;> rfl

lemma resolvedPool_not_empty (env : Env) (jo : JsonOutcome) (a : Args) :
    (resolvedPool env jo a).isEmpty = false := by
  simp only [resolvedPool]
  split
  · exact default_models_not_empty env
  · next h => simpa using h

lemma routerBranch_mode (ocall : Ocall) (mode : String) (pool : List ModelDict)
    (msg : String) (t : ℚ) (k : ℤ) :
    (routerBranch ocall mode pool msg t k).1.meta.mode = some mode := by
  simp only [routerBranch]
  split <;> rfl

lemma cascadeBranch_mode (ocall : Ocall) (mode : String) (pool : List ModelDict)
    (msg : String) (t : ℚ) (k : ℤ) :
    (cascadeBranch ocall mode pool msg t k).1.meta.mode = some mode := rfl

lemma committeeBranch_mode (env : Env) (ocall : Ocall) (mode : String)
    (pool : List ModelDict) (msg : String) (t : ℚ) (k : ℤ) (jp jm : Option String) :
    (committeeBranch env ocall mode pool msg t k jp jm).1.meta.mode = some mode := by
  simp only [committeeBranch]
  split <;> rfl

lemma dispatchEnsemble_mode (env : Env) (ocall : Ocall) (mode : String)
    (pool : List ModelDict) (a : Args) (hp : pool.isEmpty = false) :
    (dispatchEnsemble env ocall mode pool a).1.meta.mode = some mode := by
  unfold dispatchEnsemble
  rw [hp]
  simp only [Bool.false_eq_true, if_false]
  by_cases hr : mode = "router"
  · rw [if_pos hr]; exact routerBranch_mode ..
  · rw [if_neg hr]
    by_cases hc : mode = "cascade"
    · rw [if_pos hc]; exact cascadeBranch_mode ..
    · rw [if_neg hc]; exact committeeBranch_mode ..

/-- C1 (amended): for a non-empty message and a non-empty, validated
explicit pool, `run_ensemble` returns a result whose `meta.mode` is the
lowercased caller mode when that is non-empty, and otherwise the
lowercased environment mode (default `"committee"`). -/
theorem run_ensemble_meta_mode (env : Env) (jo : JsonOutcome) (ocall : Ocall)
    (a : Args) (ms : List ModelDict) (h1 : pyStrip a.message ≠ "")
    (h2 : a.models = some ms) (h3 : ms ≠ [])
    (h4 : ∀ m ∈ ms, _validate_model_config m) :
    (run_ensemble env jo ocall a).1.meta.mode
      = some (pyLower (pyOrStr a.mode (env.ensembleMode.getD "committee"))) := by
  unfold run_ensemble
  rw [if_neg h1]
  exact dispatchEnsemble_mode env ocall _ _ a (resolvedPool_not_empty env jo a)

def env0 : Env := {}

def jo0 : JsonOutcome := .error ()

def oc0 : Ocall := fun _ _ _ _ _ => .ok "ok"

def poolOpenai : List ModelDict := [⟨some "openai", some "gpt-4o"⟩]

/-- C1 witness: an explicitly supplied mode is lowercased into
`meta.mode`. -/
theorem run_ensemble_meta_mode_witness :
    (run_ensemble env0 jo0 oc0
      { message := "hi", mode := some "CASCADE", models := some poolOpenai }).1.meta.mode
      = some "cascade" := by
  have h := run_ensemble_meta_mode env0 jo0 oc0
    { message := "hi", mode := some "CASCADE", models := some poolOpenai }
    poolOpenai (by decide) rfl (by decide) (by decide)
  rw [h]
  decide

/-- C1 counterexample: with `mode=""` (a mode string whose lowercase is
`""`), `meta.mode` is the environment default `"committee"`, not the
lowercased caller string — Python `or` treats the empty mode as absent. -/
theorem mode_empty_string_counterexample :
    (run_ensemble env0 jo0 oc0
      { message := "hi", mode := some "", models := some poolOpenai }).1.meta.mode
      = some "committee" ∧
    some "committee" ≠ some (pyLower "") := by
  constructor
  · decide
  · decide

lemma cascadeBranch_error_none (ocall : Ocall) (mode : String) (pool : List ModelDict)
    (msg : String) (t : ℚ) (k : ℤ) :
    (cascadeBranch ocall mode pool msg t k).1.meta.error = none := rfl

lemma committeeBranch_error_none (env : Env) (ocall : Ocall) (mode : String)
    (pool : List ModelDict) (msg : String) (t : ℚ) (k : ℤ) (jp jm : Option String) :
    (committeeBranch env ocall mode pool msg t k jp jm).1.meta.error = none := by
  simp only [committeeBranch]
  split <;> rfl

lemma routerBranch_error (ocall : Ocall) (mode : String) (pool : List ModelDict)
    (msg : String) (t : ℚ) (k : ℤ) :
    (routerBranch ocall mode pool msg t k).1.meta.error = none ∨
    ∃ e, (routerBranch ocall mode pool msg t k).1.meta.error = some e ∧
      ocall (dGet (_router_choice msg pool).provider)
        (dGet (_router_choice msg pool).model) msg t k = .error e := by
  simp only [routerBranch]
  split
  · left; rfl
  · next e heq => right; exact ⟨e, rfl, heq⟩

lemma dispatchEnsemble_error (env : Env) (ocall : Ocall) (mode : String)
    (pool : List ModelDict) (a : Args) (hp : pool.isEmpty = false)
    (hoc : ∀ p m msg t k e, ocall p m msg t k = .error e → e ≠ "No models available") :
    (dispatchEnsemble env ocall mode pool a).1.meta.error
      ≠ some "No models available" := by
  unfold dispatchEnsemble
  rw [hp]
  simp only [Bool.false_eq_true, if_false]
  by_cases hr : mode = "router"
  · rw [if_pos hr]
    rcases routerBranch_error ocall mode pool a.message a.temperature a.maxTokens with
      h | ⟨e, he, hcall⟩
    · rw [h]; exact fun hcontra => Option.noConfusion hcontra
    · rw [he]
      intro hcontra
      exact absurd (Option.some.inj hcontra) (hoc _ _ _ _ _ _ hcall)
  · rw [if_neg hr]
    by_cases hc : mode = "cascade"
    · rw [if_pos hc, cascadeBranch_error_none]
      exact fun hcontra => Option.noConfusion hcontra
    · rw [if_neg hc, committeeBranch_error_none]
      exact fun hcontra => Option.noConfusion hcontra

/-- C10: the built-in default pool always starts with the openai and
anthropic entries (independent of any API-key presence), so the
`"No models available"` configuration-error branch is unreachable:
provided the oracle's escaping exceptions never carry that exact message
(true of the real ones, which are unsupported-provider or client-setup
errors), no result of `run_ensemble` has that `meta.error`. -/
theorem no_models_branch_unreachable (env : Env) (jo : JsonOutcome) (ocall : Ocall)
    (a : Args)
    (hoc : ∀ p m msg t k e, ocall p m msg t k = .error e → e ≠ "No models available") :
    (run_ensemble env jo ocall a).1.meta.error ≠ some "No models available" ∧
    ((_get_default_models env).map (fun m => dGet m.provider)).take 2
      = ["openai", "anthropic"] := by
  constructor
  · unfold run_ensemble
    split
    · intro hcontra
      exact absurd (Option.some.inj hcontra) (by decide)
    · exact dispatchEnsemble_error env ocall _ _ a (resolvedPool_not_empty env jo a) hoc
  · simp only [_get_default_models]
    split <;> split <;> rfl

/-- C10 witness: a concrete run (no keys configured, benign oracle) whose
result has no `"No models available"` error and whose default pool leads
with openai and anthropic. -/
theorem no_models_branch_unreachable_witness :
    (run_ensemble env0 jo0 oc0 { message := "hi" }).1.meta.error
      ≠ some "No models available" ∧
    ((_get_default_models env0).map (fun m => dGet m.provider)).take 2
      = ["openai", "anthropic"] :=
  no_models_branch_unreachable env0 jo0 oc0 { message := "hi" }
    (fun _ _ _ _ _ _ h => Except.noConfusion h)

/-- C6 counterexample: an explicit pool entry with both keys present but
empty-string values survives validation — `_validate_model_config` checks
key presence only — so not every entry of the resolved pool has non-empty
provider and model strings. -/
theorem empty_provider_retained_counterexample :
    ¬ (∀ m ∈ resolvedPool env0 jo0
        { message := "hi", models := some [⟨some "", some ""⟩] },
        dGet m.provider ≠ "" ∧ dGet m.model ≠ "") := by
  decide

/-- C6 (amended): for an explicit pool, the Pool Resolver keeps exactly
the entries that possess both the `provider` and `model` keys (no error is
raised); values are not inspected, so retained entries may carry empty
strings. -/
theorem explicit_pool_validation (env : Env) (jo : JsonOutcome) (a : Args)
    (ms : List ModelDict) (h2 : a.models = some ms)
    (hne : ms.filter _validate_model_config ≠ []) :
    resolvedPool env jo a = ms.filter _validate_model_config ∧
    ∀ m ∈ resolvedPool env jo a, m.provider.isSome ∧ m.model.isSome := by
  have hms : ms ≠ [] := by
    intro h
    subst h
    exact hne rfl
  have hmse : ms.isEmpty = false := by
    cases ms with
    | nil => exact absurd rfl hms
    | cons x xs => rfl
  have hfe : (ms.filter _validate_model_config).isEmpty = false := by
    cases hh : ms.filter _validate_model_config with
    | nil => exact absurd hh hne
    | cons x xs => rfl
  have hpe : resolvedPool env jo a = ms.filter _validate_model_config := by
    simp only [resolvedPool, h2, pyOrList, hmse, Bool.false_eq_true, if_false, hfe]
  refine ⟨hpe, ?_⟩
  intro m hm
  rw [hpe] at hm
  have hv := (List.mem_filter.mp hm).2
  simp only [_validate_model_config, Bool.and_eq_true] at hv
  exact hv

/-- C6 witness: a key-complete entry is kept, a keyless entry dropped. -/
theorem explicit_pool_validation_witness :
    resolvedPool env0 jo0
      { message := "hi",
        models := some [⟨some "openai", some "gpt-4o"⟩, ⟨none, some "x"⟩] }
      = [⟨some "openai", some "gpt-4o"⟩] := by
  have h := explicit_pool_validation env0 jo0
    { message := "hi",
      models := some [⟨some "openai", some "gpt-4o"⟩, ⟨none, some "x"⟩] }
    [⟨some "openai", some "gpt-4o"⟩, ⟨none, some "x"⟩] rfl (by decide)
  rw [h.1]
  decide

def env7 : Env := { ensembleModels := some "\x7boops" }

/-- C7 counterexample: with a malformed-JSON (and malformed-CSV) pool
string and no API key configured at all, the substituted default pool
still contains the openai entry — default-pool membership of openai and
anthropic is unconditional, not key-gated as the claim states. -/
theorem default_pool_ignores_api_keys_counterexample :
    (⟨some "openai", some "gpt-4o"⟩ : ModelDict) ∈ resolvedPool env7 jo0 { message := "hi" } ∧
    env7.openaiApiKey = none ∧ env7.anthropicApiKey = none ∧
    env7.groqApiKey = none ∧ env7.deepseekApiKey = none := by
  decide

lemma defaults_no_groq (env : Env) (hk : pyTruthy env.groqApiKey = false)
    (m : ModelDict) (hm : m ∈ _get_default_models env) : dGet m.provider ≠ "groq" := by
  simp only [_get_default_models, hk, Bool.false_eq_true, if_false] at hm
  by_cases hdk : pyTruthy env.deepseekApiKey
  · simp only [hdk, if_true, List.cons_append, List.nil_append, List.mem_cons,
      List.not_mem_nil, or_false] at hm
    rcases hm with rfl | rfl | rfl <;> simp [dGet]
  · simp only [hdk, Bool.false_eq_true, if_false, List.mem_cons,
      List.not_mem_nil, or_false] at hm
    rcases hm with rfl | rfl <;> simp [dGet]

lemma defaults_no_deepseek (env : Env) (hk : pyTruthy env.deepseekApiKey = false)
    (m : ModelDict) (hm : m ∈ _get_default_models env) : dGet m.provider ≠ "deepseek" := by
  simp only [_get_default_models, hk, Bool.false_eq_true, if_false] at hm
  by_cases hgk : pyTruthy env.groqApiKey
  · simp only [hgk, if_true, List.cons_append, List.nil_append, List.mem_cons,
      List.not_mem_nil, or_false] at hm
    rcases hm with rfl | rfl | rfl <;> simp [dGet]
  · simp only [hgk, Bool.false_eq_true, if_false, List.mem_cons,
      List.not_mem_nil, or_false] at hm
    rcases hm with rfl | rfl <;> simp [dGet]

/-- C7 (amended): whenever the pool resolves to empty after validation
(including malformed JSON and CSV environment strings), `run_ensemble`
substitutes the built-in default pool, which is never empty: it always
contains the openai and anthropic entries, and contains groq and deepseek
entries only when the corresponding API key is configured. -/
theorem default_pool_substitution (env : Env) (jo : JsonOutcome) (a : Args)
    (h : (pyOrList a.models (_parse_models env.ensembleModels jo)).filter
      _validate_model_config = []) :
    resolvedPool env jo a = _get_default_models env ∧
    (_get_default_models env).isEmpty = false ∧
    (pyTruthy env.groqApiKey = false →
      ∀ m ∈ _get_default_models env, dGet m.provider ≠ "groq") ∧
    (pyTruthy env.deepseekApiKey = false →
      ∀ m ∈ _get_default_models env, dGet m.provider ≠ "deepseek") ∧
    (⟨some "openai", some (env.openaiModel.getD "gpt-4o")⟩ : ModelDict)
      ∈ _get_default_models env ∧
    (⟨some "anthropic", some (env.anthropicModel.getD "claude-3-5-sonnet-latest")⟩ : ModelDict)
      ∈ _get_default_models env := by
  refine ⟨?_, default_models_not_empty env, defaults_no_groq env, defaults_no_deepseek env,
    ?_, ?_⟩
  · simp only [resolvedPool, h, List.isEmpty_nil, if_true]
  · simp only [_get_default_models]
    split <;> split <;> simp
  · simp only [_get_default_models]
    split <;> split <;> simp

/-- C7 witness: the malformed pool string of `env7` resolves to the
default pool, which is non-empty. -/
theorem default_pool_substitution_witness :
    resolvedPool env7 jo0 { message := "hi" } = _get_default_models env7 ∧
    (_get_default_models env7).isEmpty = false := by
  have h := default_pool_substitution env7 jo0 { message := "hi" } (by decide)
  exact ⟨h.1, h.2.1⟩

def pool3 : List ModelDict :=
  [⟨some "openai", some "m1"⟩, ⟨some "anthropic", some "m2"⟩, ⟨some "groq", some "m3"⟩]

/-- The `_cached_model_call` argument tuple for one pool member. -/
def callOf (msg : String) (t : ℚ) (k : ℤ) (m : ModelDict) : Call :=
  ⟨dGet m.provider, dGet m.model, msg, t, k⟩

/-- The pool members the cascade loop invokes: a prefix of the pool in
pool order, cut immediately after the first member whose trimmed
response length reaches `max_tokens`; failures do not cut the prefix. -/
def cascadeInvoked (ocall : Ocall) (msg : String) (t : ℚ) (k : ℤ) :
    List ModelDict → List ModelDict
  | [] => []
  | m :: rest =>
    m :: (match ocall (dGet m.provider) (dGet m.model) msg t k with
      | .error _ => cascadeInvoked ocall msg t k rest
      | .ok txt =>
        if ((pyStrip txt).length : ℤ) ≥ k then []
        else cascadeInvoked ocall msg t k rest)

lemma cascadeLoop_calls (ocall : Ocall) (msg : String) (t : ℚ) (k : ℤ)
    (pool : List ModelDict) :
    ∀ st : CascadeState, (cascadeLoop ocall msg t k pool st).calls
      = st.calls ++ (cascadeInvoked ocall msg t k pool).map (callOf msg t k) := by
  induction pool with
  | nil => intro st; simp [cascadeLoop, cascadeInvoked]
  | cons m rest ih =>
    intro st
    cases hc : ocall (dGet m.provider) (dGet m.model) msg t k with
    | error e =>
      simp only [cascadeLoop, cascadeInvoked, hc]
      rw [ih]
      simp [callOf, List.append_assoc]
    | ok txt =>
      by_cases hscore : ((pyStrip txt).length : ℤ) ≥ k
      · simp only [cascadeLoop, cascadeInvoked, hc, if_pos hscore]
        simp [apply_ite CascadeState.calls, callOf]
      · simp only [cascadeLoop, cascadeInvoked, hc, if_neg hscore]
        rw [ih]
        simp [apply_ite CascadeState.calls, callOf, List.append_assoc]

/-- C4: cascade invokes pool members strictly in pool order, stopping
right after the first member whose trimmed response length reaches
`max_tokens` (failures are skipped, not fatal); in the three-member
scenario where the first member raises and the second qualifies, exactly
two invocations occur (the third member is never called, for every
behaviour of the oracle on it), the failure is recorded as a diagnostics
entry, and the second response is returned. -/
theorem cascade_order_and_early_exit (env : Env) (jo : JsonOutcome) (ocall : Ocall)
    (msg : String) (t : ℚ) (hmsg : pyStrip msg ≠ "")
    (h1 : ocall "openai" "m1" msg t 5 = .error "boom")
    (h2 : ocall "anthropic" "m2" msg t 5 = .ok "hello!") :
    run_ensemble env jo ocall
      { message := msg, temperature := t, maxTokens := 5,
        mode := some "cascade", models := some pool3 }
      = (⟨"hello!",
          { mode := some "cascade",
            candidates := some [.fail ⟨some "openai", some "m1"⟩ "boom",
              .ok ⟨some "anthropic", some "m2"⟩ 6 (_calculate_confidence msg "hello!")],
            chosen := some (.model ⟨some "anthropic", some "m2"⟩),
            winner := some ⟨some "anthropic", some "m2"⟩,
            confidence := some (_calculate_confidence msg "hello!") }⟩,
         [⟨"openai", "m1", msg, t, 5⟩, ⟨"anthropic", "m2", msg, t, 5⟩]) ∧
    (∀ (pool : List ModelDict) (k : ℤ), (∀ m ∈ pool, _validate_model_config m) →
      pool ≠ [] →
      (run_ensemble env jo ocall
        { message := msg, temperature := t, maxTokens := k,
          mode := some "cascade", models := some pool }).2
        = (cascadeInvoked ocall msg t k pool).map (callOf msg t k)) := by
  constructor
  · unfold run_ensemble
    rw [if_neg hmsg]
    show cascadeBranch ocall "cascade" pool3 msg t 5 = _
    have hloop : cascadeLoop ocall msg t 5 pool3 ⟨"", 0, none, [], []⟩ =
        ⟨"hello!", 6, some ⟨some "anthropic", some "m2"⟩,
          [.fail ⟨some "openai", some "m1"⟩ "boom",
           .ok ⟨some "anthropic", some "m2"⟩ 6 (_calculate_confidence msg "hello!")],
          [⟨"openai", "m1", msg, t, 5⟩, ⟨"anthropic", "m2", msg, t, 5⟩]⟩ := by
      simp only [pool3, cascadeLoop, dGet, Option.getD, h1, h2]
      rfl
    simp only [cascadeBranch, hloop]
    rfl
  · intro pool k hv hne
    have hpe : pool.isEmpty = false := by
      cases pool with
      | nil => exact absurd rfl hne
      | cons x xs => rfl
    have hfilter : pool.filter _validate_model_config = pool :=
      List.filter_eq_self.mpr hv
    have hrp : resolvedPool env jo
        { message := msg, temperature := t, maxTokens := k,
          mode := some "cascade", models := some pool } = pool := by
      simp only [resolvedPool, pyOrList, hfilter, hpe, Bool.false_eq_true, if_false]
    unfold run_ensemble
    dsimp only
    rw [if_neg hmsg, hrp]
    rw [show pyOrStr (some "cascade") (env.ensembleMode.getD "committee") = "cascade"
      from rfl]
    unfold dispatchEnsemble
    rw [hpe]
    simp only [Bool.false_eq_true, if_false]
    rw [if_neg (show pyLower "cascade" ≠ "router" by decide),
      if_pos (show pyLower "cascade" = "cascade" by decide)]
    show (cascadeLoop ocall msg t k pool ⟨"", 0, none, [], []⟩).calls = _
    rw [cascadeLoop_calls]
    simp

/-- Oracle for the C4 witness: openai raises, everything else answers. -/
def oc4 : Ocall := fun p _ _ _ _ =>
  if p = "openai" then .error "boom" else .ok "hello!"

/-- C4 witness: the theorem instantiated at a concrete message, oracle
and temperature. -/
theorem cascade_order_and_early_exit_witness :
    run_ensemble env0 jo0 oc4
      { message := "What is 2+2?", maxTokens := 5,
        mode := some "cascade", models := some pool3 }
      = (⟨"hello!",
          { mode := some "cascade",
            candidates := some [.fail ⟨some "openai", some "m1"⟩ "boom",
              .ok ⟨some "anthropic", some "m2"⟩ 6
                (_calculate_confidence "What is 2+2?" "hello!")],
            chosen := some (.model ⟨some "anthropic", some "m2"⟩),
            winner := some ⟨some "anthropic", some "m2"⟩,
            confidence := some (_calculate_confidence "What is 2+2?" "hello!") }⟩,
         [⟨"openai", "m1", "What is 2+2?", 1/5, 5⟩,
          ⟨"anthropic", "m2", "What is 2+2?", 1/5, 5⟩]) :=
  (cascade_order_and_early_exit env0 jo0 oc4 "What is 2+2?" (1/5)
    (by decide) rfl rfl).1

/-- The lexicographic order on `(confidence, length)` keys, stated as the
claim states it. -/
def lexLe (x y : ℚ × ℕ) : Prop :=
  x.1 < y.1 ∨ (x.1 = y.1 ∧ x.2 ≤ y.2)

lemma lexLe_refl (x : ℚ × ℕ) : lexLe x x := Or.inr ⟨rfl, le_refl _⟩

lemma lexLe_trans {x y z : ℚ × ℕ} (h1 : lexLe x y) (h2 : lexLe y z) : lexLe x z := by
  rcases h1 with h1 | ⟨h1e, h1n⟩
  · rcases h2 with h2 | ⟨h2e, h2n⟩
    · exact Or.inl (lt_trans h1 h2)
    · exact Or.inl (lt_of_lt_of_le h1 (le_of_eq h2e))
  · rcases h2 with h2 | ⟨h2e, h2n⟩
    · exact Or.inl (lt_of_le_of_lt (le_of_eq h1e) h2)
    · exact Or.inr ⟨h1e.trans h2e, le_trans h1n h2n⟩

lemma keyLtQN_true_lexLe {x y : ℚ × ℕ} (h : keyLtQN x y = true) : lexLe x y := by
  simp only [keyLtQN, Bool.or_eq_true, Bool.and_eq_true, decide_eq_true_eq] at h
  rcases h with h | ⟨he, hn⟩
  · exact Or.inl h
  · exact Or.inr ⟨he, le_of_lt hn⟩

lemma keyLtQN_not_lexLe {x y : ℚ × ℕ} (h : ¬ keyLtQN x y = true) : lexLe y x := by
  simp only [keyLtQN, Bool.or_eq_true, Bool.and_eq_true, decide_eq_true_eq,
    not_or, not_and] at h
  obtain ⟨hlt, hand⟩ := h
  rcases lt_or_eq_of_le (le_of_not_lt hlt) with hgt | heq
  · exact Or.inl hgt
  · exact Or.inr ⟨heq, le_of_not_lt (hand heq.symm)⟩

lemma pyMaxByKey_fold (k : String × String → ℚ × ℕ) :
    ∀ (xs : List (String × String)) (b : String × String),
      ∃ r, xs.foldl (pyMaxStep k) (some b) = some r ∧ (r = b ∨ r ∈ xs) ∧
        lexLe (k b) (k r) ∧ ∀ c ∈ xs, lexLe (k c) (k r) := by
  intro xs
  induction xs with
  | nil =>
    intro b
    refine ⟨b, rfl, Or.inl rfl, lexLe_refl _, ?_⟩
    intro c hc
    exact absurd hc (List.not_mem_nil c)
  | cons y ys ih =>
    intro b
    simp only [List.foldl_cons, pyMaxStep]
    by_cases hk : keyLtQN (k b) (k y) = true
    · rw [if_pos hk]
      obtain ⟨r, hr, hmem, hle, hall⟩ := ih y
      refine ⟨r, hr, ?_, lexLe_trans (keyLtQN_true_lexLe hk) hle, ?_⟩
      · rcases hmem with rfl | hmem
        · exact Or.inr (List.mem_cons_self _ _)
        · exact Or.inr (List.mem_cons_of_mem _ hmem)
      · intro c hc
        rcases List.mem_cons.mp hc with rfl | hc
        · exact hle
        · exact hall c hc
    · rw [if_neg hk]
      obtain ⟨r, hr, hmem, hle, hall⟩ := ih b
      refine ⟨r, hr, ?_, hle, ?_⟩
      · rcases hmem with rfl | hmem
        · exact Or.inl rfl
        · exact Or.inr (List.mem_cons_of_mem _ hmem)
      · intro c hc
        rcases List.mem_cons.mp hc with rfl | hc
        · exact lexLe_trans (keyLtQN_not_lexLe hk) hle
        · exact hall c hc

/-- Python `max(l, key=k)` on a non-empty list returns an element of the
list whose key is lexicographically maximal among all elements. -/
lemma pyMaxByKey_mem_max (k : String × String → ℚ × ℕ)
    (l : List (String × String)) (hl : l ≠ []) :
    ∃ b, pyMaxByKey l k = some b ∧ b ∈ l ∧ ∀ c ∈ l, lexLe (k c) (k b) := by
  cases l with
  | nil => exact absurd rfl hl
  | cons x xs =>
    obtain ⟨r, hr, hmem, hle, hall⟩ := pyMaxByKey_fold k xs x
    refine ⟨r, ?_, ?_, ?_⟩
    · show (x :: xs).foldl (pyMaxStep k) none = some r
      simp only [List.foldl_cons, pyMaxStep]
      exact hr
    · rcases hmem with rfl | hmem
      · exact List.mem_cons_self _ _
      · exact List.mem_cons_of_mem _ hmem
    · intro c hc
      rcases List.mem_cons.mp hc with rfl | hc
      · exact hle
      · exact hall c hc

lemma dispatchEnsemble_invalid (env : Env) (ocall : Ocall) (mode : String)
    (pool : List ModelDict) (a : Args) (hp : pool.isEmpty = false)
    (hr : mode ≠ "router") (hc : mode ≠ "cascade") :
    dispatchEnsemble env ocall mode pool a
      = committeeBranch env ocall mode pool a.message a.temperature a.maxTokens
          a.judgeProvider a.judgeModel := by
  unfold dispatchEnsemble
  rw [hp]
  simp only [Bool.false_eq_true, if_false, if_neg hr, if_neg hc]

lemma resolvedPool_explicit (env : Env) (jo : JsonOutcome) (a : Args)
    (ms : List ModelDict) (h2 : a.models = some ms) (h3 : ms ≠ [])
    (h4 : ∀ m ∈ ms, _validate_model_config m) : resolvedPool env jo a = ms := by
  have hmse : ms.isEmpty = false := by
    cases ms with
    | nil => exact absurd rfl h3
    | cons x xs => rfl
  have hfilter : ms.filter _validate_model_config = ms := List.filter_eq_self.mpr h4
  simp only [resolvedPool, h2, pyOrList, hmse, Bool.false_eq_true, if_false, hfilter]

lemma run_ensemble_committee (env : Env) (jo : JsonOutcome) (ocall : Ocall) (a : Args)
    (ms : List ModelDict) (hmsg : pyStrip a.message ≠ "")
    (hmode : a.mode = some "committee") (h2 : a.models = some ms) (h3 : ms ≠ [])
    (h4 : ∀ m ∈ ms, _validate_model_config m) :
    run_ensemble env jo ocall a
      = committeeBranch env ocall "committee" ms a.message a.temperature a.maxTokens
          a.judgeProvider a.judgeModel := by
  have hmse : ms.isEmpty = false := by
    cases ms with
    | nil => exact absurd rfl h3
    | cons x xs => rfl
  unfold run_ensemble
  rw [if_neg hmsg, hmode, resolvedPool_explicit env jo a ms h2 h3 h4]
  exact dispatchEnsemble_invalid env ocall "committee" ms a hmse (by decide) (by decide)

def poolC3 : List ModelDict := [⟨some "groq", some "m1"⟩, ⟨some "deepseek", some "m2"⟩]

/-- C3: in committee mode, whenever the candidate text chosen by the
judge is empty or whitespace-only and at least one candidate exists, the
returned response is overridden to a candidate whose
`(confidence, trimmed length)` key is lexicographically maximal among
all candidates — for every environment, oracle, message, pool and judge
configuration; in particular, for candidates `("groq:m1", "")` and
`("deepseek:m2", "substantive answer")` with a judge replying index 0,
`run_ensemble` returns `"substantive answer"`, never `""`. -/
theorem judge_empty_pick_guardrail :
    (∀ (env : Env) (jo : JsonOutcome) (ocall : Ocall) (a : Args)
      (ms : List ModelDict) (jp jm : String),
      pyStrip a.message ≠ "" → a.mode = some "committee" → a.models = some ms →
      ms ≠ [] → (∀ m ∈ ms, _validate_model_config m) →
      a.judgeProvider = some jp → jp ≠ "" → a.judgeModel = some jm → jm ≠ "" →
      ∀ st chosen,
        st = committeeLoop ocall a.message a.temperature a.maxTokens ms ⟨[], [], []⟩ →
        chosen = (_judge ocall a.message st.candidates jp jm
          a.temperature a.maxTokens).1 →
        st.candidates ≠ [] → pyStrip chosen = "" →
        ∃ best ∈ st.candidates,
          (run_ensemble env jo ocall a).1.response = best.2 ∧
          ∀ c ∈ st.candidates,
            lexLe (_calculate_confidence a.message c.2, (pyStrip c.2).length)
              (_calculate_confidence a.message best.2, (pyStrip best.2).length)) ∧
    (∀ (env : Env) (jo : JsonOutcome) (ocall : Ocall) (t : ℚ) (k : ℤ),
      ocall "groq" "m1" "What is 2+2?" t k = .ok "" →
      ocall "deepseek" "m2" "What is 2+2?" t k = .ok "substantive answer" →
      ocall "openai" "gpt-4o"
          (judgePrompt "What is 2+2?"
            [("groq:m1", ""), ("deepseek:m2", "substantive answer")])
          (min (1/5) t) 16 = .ok "0" →
      (run_ensemble env jo ocall
        { message := "What is 2+2?", temperature := t, maxTokens := k,
          mode := some "committee", models := some poolC3,
          judgeProvider := some "openai", judgeModel := some "gpt-4o" }).1.response
        = "substantive answer" ∧
      (run_ensemble env jo ocall
        { message := "What is 2+2?", temperature := t, maxTokens := k,
          mode := some "committee", models := some poolC3,
          judgeProvider := some "openai", judgeModel := some "gpt-4o" }).1.response
        ≠ "") := by
  constructor
  · intro env jo ocall a ms jp jm hmsg hmode h2 h3 h4 hjpe hjpne hjme hjmne
      st chosen hst hchosen hcand hguard
    subst hst
    subst hchosen
    rw [run_ensemble_committee env jo ocall a ms hmsg hmode h2 h3 h4]
    obtain ⟨b, hbmax, hbmem, hbmaxall⟩ := pyMaxByKey_mem_max
      (fun p => (_calculate_confidence a.message p.2, (pyStrip p.2).length))
      (committeeLoop ocall a.message a.temperature a.maxTokens ms ⟨[], [], []⟩).candidates
      hcand
    refine ⟨b, hbmem, ?_, fun c hc => hbmaxall c hc⟩
    have hce : (committeeLoop ocall a.message a.temperature a.maxTokens ms
        ⟨[], [], []⟩).candidates.isEmpty = false := by
      cases hsc : (committeeLoop ocall a.message a.temperature a.maxTokens ms
          ⟨[], [], []⟩).candidates with
      | nil => exact absurd hsc hcand
      | cons x xs => rfl
    simp only [committeeBranch, hjpe, hjme, pyOrStr]
    rw [if_neg hjpne, if_neg hjmne, hce]
    simp only [Bool.false_eq_true, if_false]
    rw [if_pos hguard, hbmax]
    rfl
  · intro env jo ocall t k h1 h2 h3
    have hloop : committeeLoop ocall "What is 2+2?" t k poolC3 ⟨[], [], []⟩ =
        ⟨[("groq:m1", ""), ("deepseek:m2", "substantive answer")],
         [.ok ⟨some "groq", some "m1"⟩ 0 (_calculate_confidence "What is 2+2?" ""),
          .ok ⟨some "deepseek", some "m2"⟩ 18
            (_calculate_confidence "What is 2+2?" "substantive answer")],
         [⟨"groq", "m1", "What is 2+2?", t, k⟩,
          ⟨"deepseek", "m2", "What is 2+2?", t, k⟩]⟩ := by
      simp only [poolC3, committeeLoop, dGet, Option.getD, h1, h2]
      rfl
    have hjudge : _judge ocall "What is 2+2?"
        [("groq:m1", ""), ("deepseek:m2", "substantive answer")] "openai" "gpt-4o" t k
        = ("", [⟨"openai", "gpt-4o",
            judgePrompt "What is 2+2?"
              [("groq:m1", ""), ("deepseek:m2", "substantive answer")],
            min (1/5) t, 16⟩]) := by
      simp only [_judge, h3]
      rfl
    have h0 : _calculate_confidence "What is 2+2?" "" = 0 := rfl
    have hc2 : (0:ℚ) < _calculate_confidence "What is 2+2?" "substantive answer" :=
      lt_of_lt_of_le (by norm_num)
        (confidence_lower_bound "What is 2+2?" "substantive answer"
          (by decide) (by decide))
    have hkey : keyLtQN
        (_calculate_confidence "What is 2+2?" "", (pyStrip "").length)
        (_calculate_confidence "What is 2+2?" "substantive answer",
          (pyStrip "substantive answer").length) = true := by
      unfold keyLtQN
      dsimp only
      rw [h0, decide_eq_true hc2]
      simp
    have hmax : pyMaxByKey [("groq:m1", ""), ("deepseek:m2", "substantive answer")]
        (fun p => (_calculate_confidence "What is 2+2?" p.2, (pyStrip p.2).length))
        = some ("deepseek:m2", "substantive answer") := by
      unfold pyMaxByKey
      simp only [List.foldl_cons, List.foldl_nil, pyMaxStep]
      rw [if_pos hkey]
    have hmain : (run_ensemble env jo ocall
        { message := "What is 2+2?", temperature := t, maxTokens := k,
          mode := some "committee", models := some poolC3,
          judgeProvider := some "openai", judgeModel := some "gpt-4o" }).1.response
        = "substantive answer" := by
      show (committeeBranch env ocall "committee" poolC3 "What is 2+2?" t k
        (some "openai") (some "gpt-4o")).1.response = "substantive answer"
      simp only [committeeBranch, pyOrStr,
        if_neg (show ¬("openai" = "") by decide),
        if_neg (show ¬("gpt-4o" = "") by decide), hloop, hjudge,
        List.isEmpty_cons, Bool.false_eq_true, if_false]
      rw [if_pos (show pyStrip "" = "" from rfl), hmax]
      rfl
    exact ⟨hmain, by rw [hmain]; decide⟩

/-- Oracle for the C3 witness: groq answers empty, deepseek answers
substantively, the judge (openai) replies with index 0. -/
def oc3 : Ocall := fun p _ _ _ _ =>
  if p = "groq" then .ok ""
  else if p = "deepseek" then .ok "substantive answer"
  else .ok "0"

/-- C3 witness: the scenario part of the theorem instantiated at a
concrete oracle. -/
theorem judge_empty_pick_guardrail_witness :
    (run_ensemble env0 jo0 oc3
      { message := "What is 2+2?", temperature := 1/5, maxTokens := 800,
        mode := some "committee", models := some poolC3,
        judgeProvider := some "openai", judgeModel := some "gpt-4o" }).1.response
      = "substantive answer" :=
  (judge_empty_pick_guardrail.2 env0 jo0 oc3 (1/5) 800 rfl rfl rfl).1

lemma committeeBranch_mode_patch (env : Env) (ocall : Ocall) (m1 m2 : String)
    (pool : List ModelDict) (msg : String) (t : ℚ) (k : ℤ) (jp jm : Option String) :
    committeeBranch env ocall m1 pool msg t k jp jm
      = (⟨(committeeBranch env ocall m2 pool msg t k jp jm).1.response,
          { (committeeBranch env ocall m2 pool msg t k jp jm).1.meta with
              mode := some m1 }⟩,
         (committeeBranch env ocall m2 pool msg t k jp jm).2) := by
  simp only [committeeBranch]
  split <;> rfl

/-- C9 (amended): for every non-empty mode string whose lowercase is
neither `"router"` nor `"cascade"`, `run_ensemble` runs the
committee+judge strategy: it is never rejected, never yields an error
result, and produces exactly the result of mode `"committee"` except
that `meta.mode` echoes the supplied mode lowercased. -/
theorem invalid_mode_runs_committee (env : Env) (jo : JsonOutcome) (ocall : Ocall)
    (a : Args) (s : String) (hmsg : pyStrip a.message ≠ "") (hs : s ≠ "")
    (hr : pyLower s ≠ "router") (hc : pyLower s ≠ "cascade") :
    run_ensemble env jo ocall { a with mode := some s }
      = (⟨(run_ensemble env jo ocall { a with mode := some "committee" }).1.response,
          { (run_ensemble env jo ocall { a with mode := some "committee" }).1.meta with
              mode := some (pyLower s) }⟩,
         (run_ensemble env jo ocall { a with mode := some "committee" }).2) ∧
    (run_ensemble env jo ocall { a with mode := some s }).1.meta.error = none := by
  have hL : run_ensemble env jo ocall { a with mode := some s }
      = committeeBranch env ocall (pyLower s) (resolvedPool env jo a) a.message
          a.temperature a.maxTokens a.judgeProvider a.judgeModel := by
    unfold run_ensemble
    dsimp only
    rw [if_neg hmsg]
    rw [show pyOrStr (some s) (env.ensembleMode.getD "committee") = s from by
      simp [pyOrStr, hs]]
    exact dispatchEnsemble_invalid env ocall (pyLower s) _ _
      (resolvedPool_not_empty env jo _) hr hc
  have hR : run_ensemble env jo ocall { a with mode := some "committee" }
      = committeeBranch env ocall "committee" (resolvedPool env jo a) a.message
          a.temperature a.maxTokens a.judgeProvider a.judgeModel := by
    unfold run_ensemble
    dsimp only
    rw [if_neg hmsg]
    exact dispatchEnsemble_invalid env ocall "committee" _ _
      (resolvedPool_not_empty env jo _) (by decide) (by decide)
  constructor
  · rw [hL, hR]
    exact committeeBranch_mode_patch env ocall (pyLower s) "committee" _ _ _ _ _ _
  · rw [hL]
    exact committeeBranch_error_none ..

def env9 : Env := { ensembleMode := some "router" }

def oc9 : Ocall := fun _ _ _ _ _ => .ok "x"

/-- C9 counterexample: `""` is a mode string whose lowercase is neither
`"router"` nor `"cascade"`, yet with `ENSEMBLE_MODE=router` it runs the
router strategy (one invocation), not the committee strategy (which
makes two invocations here: one member plus the judge) — Python `or`
treats an empty mode as absent. -/
theorem empty_mode_follows_env_counterexample :
    pyLower "" ≠ "router" ∧ pyLower "" ≠ "cascade" ∧
    (run_ensemble env9 jo0 oc9
      { message := "hi", mode := some "", models := some poolOpenai }).2.length = 1 ∧
    (run_ensemble env9 jo0 oc9
      { message := "hi", mode := some "committee", models := some poolOpenai }).2.length = 2 := by
  refine ⟨by decide, by decide, by decide, by decide⟩

/-- C9 witness: mode `"foo"` behaves exactly like `"committee"`. -/
theorem invalid_mode_runs_committee_witness :
    (run_ensemble env0 jo0 oc0
      { message := "hi", mode := some "foo", models := some poolOpenai }).1.response
      = (run_ensemble env0 jo0 oc0
          { message := "hi", mode := some "committee", models := some poolOpenai }).1.response ∧
    (run_ensemble env0 jo0 oc0
      { message := "hi", mode := some "foo", models := some poolOpenai }).1.meta.error
      = none := by
  have h := invalid_mode_runs_committee env0 jo0 oc0
    { message := "hi", models := some poolOpenai } "foo"
    (by decide) (by decide) (by decide) (by decide)
  exact ⟨by rw [h.1], h.2⟩

end QC
